import Mathlib

/-!
Shallow embedding of `conn.go` from the openssl Go binding: the connection
adapter that feeds a blocking `net.Conn` into OpenSSL's memory-BIO engine.

The engine (`SSL_do_handshake`, `SSL_read`, `SSL_write`, `SSL_shutdown`,
`SSL_get_error`, `ERR_peek_error`, `errorFromErrorQueue`) is opaque: each
call is modelled by an `EngCall` record giving the return value, the captured
platform `errno`, the `SSL_get_error` status, whether the engine's error
queue is empty, and the message the error queue would yield.  The adapter's
own control flow — the error classifier `getErrorHandler`, the inner locked
step functions `handshake`/`read`/`write`/`shutdown`, the retry loops, the
shutdown loop, `Close`, and `fillInputBuffer` — is translated directly.

Go `error` values are `Option Err` (`none` is Go's `nil`).  The unbounded
retry loops (`for err == tryAgain`) are given a fuel parameter; exhausting
the fuel yields the sentinel `Err.outOfFuel`, and where a claim needs
termination we prove the result is independent of any sufficiently large
fuel.
-/

namespace OpensslConn

/-- The distinct error values `conn.go` creates or compares against:
`io.EOF`, `io.ErrUnexpectedEOF`, the sentinel `tryAgain`, the literal
errors `"connection closed"`, `"protocol-violating EOF"` and
`"shutdown requested a third time?"`, a captured platform errno, a message
drawn from the engine's error queue by `errorFromErrorQueue`, a transport
error, a combined error from `utils.ErrorGroup`, and the fuel sentinel for
the modelled unbounded loops. -/
inductive Err where
  | eof
  | unexpectedEOF
  | tryAgain
  | connClosed
  | protocolEOF
  | thirdShutdown
  | outOfFuel
  | errnoErr (n : Int)
  | queueErr (msg : String)
  | transportErr (msg : String)
  | groupErr (a b : Err)
deriving DecidableEq

/-- The `SSL_get_error` classification of a failed engine step, as
scrutinised by the `switch` in `Conn.getErrorHandler`. -/
inductive SSLStatus where
  | zeroReturn
  | wantRead
  | wantWrite
  | syscall
  | other
deriving DecidableEq

/-- One response of the opaque engine to a step call: the step's return
value `rv`, the platform error captured alongside it (Go's `errno`), the
`SSL_get_error` status, whether `ERR_peek_error()` returns 0, and the
message `errorFromErrorQueue` would produce. -/
structure EngCall where
  rv : Int
  errno : Err
  status : SSLStatus
  queueEmpty : Bool
  queueMsg : String
deriving DecidableEq

/-- The closure returned by `Conn.getErrorHandler`, identified by what it
does when invoked: the `SSL_ERROR_ZERO_RETURN` closure calls `c.Close()` and
returns `io.ErrUnexpectedEOF`; the `SSL_ERROR_WANT_READ` closure either
attaches to an existing `want_read_future` or creates one and performs the
fill itself; the `SSL_ERROR_WANT_WRITE` closure flushes and retries; the
remaining cases return a fixed error. -/
inductive HandlerAction where
  | closeThenUnexpectedEOF
  | attachWantRead
  | startWantRead
  | flushThenRetry
  | fail (e : Err)
deriving DecidableEq

/-- Translation of `Conn.getErrorHandler`: dispatch on the `SSL_get_error`
code; in the `SSL_ERROR_SYSCALL` case, when `ERR_peek_error() == 0`, switch
on the return value (`0` → protocol-violating EOF, `-1` → captured errno,
default → error queue); otherwise draw from the error queue. -/
def getErrorHandler (status : SSLStatus) (rv : Int) (errno : Err)
    (queueEmpty : Bool) (queueMsg : String) (futurePresent : Bool) :
    HandlerAction :=
  match status with
  | .zeroReturn => .closeThenUnexpectedEOF
  | .wantRead => if futurePresent then .attachWantRead else .startWantRead
  | .wantWrite => .flushThenRetry
  | .syscall =>
      if queueEmpty then
        if rv = 0 then .fail .protocolEOF
        else if rv = -1 then .fail errno
        else .fail (.queueErr queueMsg)
      else .fail (.queueErr queueMsg)
  | .other => .fail (.queueErr queueMsg)

/-- Apply `getErrorHandler` to a packaged engine response. -/
def engHandler (e : EngCall) (futurePresent : Bool) : HandlerAction :=
  getErrorHandler e.status e.rv e.errno e.queueEmpty e.queueMsg futurePresent

/-- The transport-facing outcomes available to a handler closure when it is
invoked: the result of `c.fillInputBuffer()` (for the want-read closure that
owns the fill), the result of `c.flushOutputBuffer()` (for the want-write
closure), and the error delivered by `want_read_future.Get()` (for a closure
that attached to an in-flight fill). -/
structure HandlerEnv where
  fillRes : Option Err
  flushRes : Option Err
  futureRes : Option Err
deriving DecidableEq

/-- The error a handler closure returns when invoked, following the bodies
of the closures built in `Conn.getErrorHandler`: the zero-return closure
yields `io.ErrUnexpectedEOF`; an attached want-read closure yields the
future's error; the fill-owning want-read closure yields the fill error, or
`tryAgain` when the fill succeeded; the want-write closure yields the flush
error, or `tryAgain` when the flush succeeded; a `fail` closure yields its
fixed error. -/
def handlerErr (a : HandlerAction) (env : HandlerEnv) : Option Err :=
  match a with
  | .closeThenUnexpectedEOF => some .unexpectedEOF
  | .attachWantRead => env.futureRes
  | .startWantRead =>
      match env.fillRes with
      | none => some .tryAgain
      | some e => some e
  | .flushThenRetry =>
      match env.flushRes with
      | none => some .tryAgain
      | some e => some e
  | .fail e => some e

/-- Translation of `Conn.handleError`: a `nil` callback means no error. -/
def handleError (cb : Option HandlerAction) (env : HandlerEnv) : Option Err :=
  match cb with
  | none => none
  | some a => handlerErr a env

/-- The connection state the claims depend on: the `is_shutdown` flag and
the `readBio`'s EOF mark (`into_ssl.MarkEOF`). -/
structure ConnSt where
  is_shutdown : Bool
  into_eof : Bool
deriving DecidableEq

/-- Translation of the locked section of `Conn.handshake`: an already
shut-down connection returns a closure yielding `io.ErrUnexpectedEOF`
without calling the engine; otherwise one `SSL_do_handshake` call is made,
`rv > 0` is success (`nil` callback), and any other return is classified. -/
def ConnSt.handshake (c : ConnSt) (eng : EngCall) (futurePresent : Bool) :
    Option HandlerAction :=
  if c.is_shutdown then some (.fail .unexpectedEOF)
  else if 0 < eng.rv then none
  else some (engHandler eng futurePresent)

/-- Translation of `Conn.read`: a zero-length buffer returns `(0, nil)`; an
already shut-down connection returns a closure yielding `io.EOF`; otherwise
one `SSL_read` call is made, `rv > 0` returns the byte count, and any other
return is classified. -/
def ConnSt.read (c : ConnSt) (blen : Nat) (eng : EngCall)
    (futurePresent : Bool) : Nat × Option HandlerAction :=
  if blen = 0 then (0, none)
  else if c.is_shutdown then (0, some (.fail .eof))
  else if 0 < eng.rv then (eng.rv.toNat, none)
  else (0, some (engHandler eng futurePresent))

/-- Translation of `Conn.write`: a zero-length buffer returns `(0, nil)`; an
already shut-down connection returns a closure yielding the
`"connection closed"` error; otherwise one `SSL_write` call is made,
`rv > 0` returns the byte count, and any other return is classified. -/
def ConnSt.write (c : ConnSt) (blen : Nat) (eng : EngCall)
    (futurePresent : Bool) : Nat × Option HandlerAction :=
  if blen = 0 then (0, none)
  else if c.is_shutdown then (0, some (.fail .connClosed))
  else if 0 < eng.rv then (eng.rv.toNat, none)
  else (0, some (engHandler eng futurePresent))

/-- Translation of the locked section of `Conn.shutdown`: one `SSL_shutdown`
call is made; `rv > 0` (shutdown complete) and `rv == 0` (half done, treated
as success per the comment in the source) both return a `nil` callback;
a negative return is classified. -/
def ConnSt.shutdown (c : ConnSt) (eng : EngCall) (futurePresent : Bool) :
    Option HandlerAction :=
  if 0 < eng.rv then none
  else if eng.rv = 0 then none
  else some (engHandler eng futurePresent)

/-- Translation of the `for err == tryAgain` loop in `Conn.Handshake`: each
iteration runs `c.handleError(c.handshake())` and loops while the result is
`tryAgain`.  `engs`, `futs` and `envs` give the engine response, the
presence of a `want_read_future` and the handler's transport outcomes at
each iteration; `fuel` bounds the modelled iterations. -/
def handshakeLoop (c : ConnSt) (engs : Nat → EngCall) (futs : Nat → Bool)
    (envs : Nat → HandlerEnv) : Nat → Nat → Option Err
  | _, 0 => some .outOfFuel
  | i, fuel + 1 =>
      match handleError (c.handshake (engs i) (futs i)) (envs i) with
      | some .tryAgain => handshakeLoop c engs futs envs (i + 1) fuel
      | e => e

/-- Translation of `Conn.Handshake` (the trailing `go c.flushOutputBuffer()`
is fire-and-forget and does not affect the returned error). -/
def ConnSt.Handshake (c : ConnSt) (engs : Nat → EngCall) (futs : Nat → Bool)
    (envs : Nat → HandlerEnv) (fuel : Nat) : Option Err :=
  handshakeLoop c engs futs envs 0 fuel

/-- Translation of the `for err == tryAgain` loop in `Conn.Read`: each
iteration runs `c.read` then `c.handleError`; a `nil` error returns the byte
count (the `go c.flushOutputBuffer()` there is fire-and-forget);
`io.ErrUnexpectedEOF` is translated to `io.EOF`; `tryAgain` repeats the
loop; anything else is returned with a zero count. -/
def readLoop (c : ConnSt) (blen : Nat) (engs : Nat → EngCall)
    (futs : Nat → Bool) (envs : Nat → HandlerEnv) :
    Nat → Nat → Nat × Option Err
  | _, 0 => (0, some .outOfFuel)
  | i, fuel + 1 =>
      let r := c.read blen (engs i) (futs i)
      match handleError r.2 (envs i) with
      | none => (r.1, none)
      | some e =>
          let e' := if e = .unexpectedEOF then Err.eof else e
          if e' = .tryAgain then readLoop c blen engs futs envs (i + 1) fuel
          else (0, some e')

/-- Translation of `Conn.Read`: a zero-length buffer returns `(0, nil)`
before entering the retry loop. -/
def ConnSt.Read (c : ConnSt) (blen : Nat) (engs : Nat → EngCall)
    (futs : Nat → Bool) (envs : Nat → HandlerEnv) (fuel : Nat) :
    Nat × Option Err :=
  if blen = 0 then (0, none) else readLoop c blen engs futs envs 0 fuel

/-- Translation of the `for err == tryAgain` loop in `Conn.Write`: each
iteration runs `c.write` then `c.handleError`; a `nil` error returns the
byte count paired with the result of a synchronous
`c.flushOutputBuffer()` (given by `flushes` at that iteration); `tryAgain`
repeats the loop; anything else is returned with a zero count. -/
def writeLoop (c : ConnSt) (blen : Nat) (engs : Nat → EngCall)
    (futs : Nat → Bool) (envs : Nat → HandlerEnv)
    (flushes : Nat → Option Err) : Nat → Nat → Nat × Option Err
  | _, 0 => (0, some .outOfFuel)
  | i, fuel + 1 =>
      let r := c.write blen (engs i) (futs i)
      match handleError r.2 (envs i) with
      | none => (r.1, flushes i)
      | some e =>
          if e = .tryAgain then
            writeLoop c blen engs futs envs flushes (i + 1) fuel
          else (0, some e)

/-- Translation of `Conn.Write`: a zero-length buffer returns `(0, nil)`
before entering the retry loop. -/
def ConnSt.Write (c : ConnSt) (blen : Nat) (engs : Nat → EngCall)
    (futs : Nat → Bool) (envs : Nat → HandlerEnv)
    (flushes : Nat → Option Err) (fuel : Nat) : Nat × Option Err :=
  if blen = 0 then (0, none) else writeLoop c blen engs futs envs flushes 0 fuel

/-- Translation of the loop body of `Conn.shutdownLoop`, with
`tries` the value of `shutdown_tries` on entry: each iteration increments
the counter, runs `c.handleError(c.shutdown())`, returns
`c.flushOutputBuffer()`'s result on a `nil` error, fails with the
`"shutdown requested a third time?"` error when `tryAgain` arrives with the
counter already at two, otherwise retries on `tryAgain`; on loop exit
`io.ErrUnexpectedEOF` is collapsed to `nil`. -/
def shutdownLoopAux (c : ConnSt) (engs : Nat → EngCall) (futs : Nat → Bool)
    (envs : Nat → HandlerEnv) (flush : Option Err) :
    Nat → Nat → Option Err
  | _, 0 => some .outOfFuel
  | tries, fuel + 1 =>
      let t := tries + 1
      match handleError (c.shutdown (engs t) (futs t)) (envs t) with
      | none => flush
      | some e =>
          if e = .tryAgain then
            if 2 ≤ t then some .thirdShutdown
            else shutdownLoopAux c engs futs envs flush t fuel
          else if e = .unexpectedEOF then none
          else some e

/-- Translation of `Conn.shutdownLoop`, starting with `shutdown_tries = 0`.
The engine response for attempt `k` of `SSL_shutdown` is `engs k`
(attempts are counted from 1, matching `shutdown_tries`). -/
def shutdownLoop (c : ConnSt) (engs : Nat → EngCall) (futs : Nat → Bool)
    (envs : Nat → HandlerEnv) (flush : Option Err) (fuel : Nat) :
    Option Err :=
  shutdownLoopAux c engs futs envs flush 0 fuel

/-- Modelled from the spec: `utils.ErrorGroup` (package
`github.com/spacemonkeygo/openssl/utils`, not under `src/`) collects the
non-`nil` errors passed to `Add`. -/
def ErrorGroup.add (g : List Err) : Option Err → List Err
  | none => g
  | some e => g ++ [e]

/-- Modelled from the spec: `utils.ErrorGroup.Finalize` aggregates the
collected results into one combined error when any step failed, and is
`nil` exactly when no error was collected. -/
def ErrorGroup.finalize : List Err → Option Err
  | [] => none
  | [e] => some e
  | a :: b :: rest => some (rest.foldl .groupErr (.groupErr a b))

/-- The observable outcome of one `Conn.Close` call: the returned error, the
connection state afterwards, and whether this call ran the shutdown loop
and closed the underlying transport. -/
structure CloseResult where
  err : Option Err
  state : ConnSt
  ranShutdownLoop : Bool
  closedTransport : Bool
deriving DecidableEq

/-- Translation of `Conn.Close`: a connection already marked shut down
returns `nil` immediately; otherwise the `is_shutdown` flag is set, the
shutdown loop runs, the underlying transport's `Close` (result `tcRes`) is
always invoked, and both results are added to a `utils.ErrorGroup` that is
then finalized. -/
def ConnSt.Close (c : ConnSt) (engs : Nat → EngCall) (futs : Nat → Bool)
    (envs : Nat → HandlerEnv) (flush : Option Err) (tcRes : Option Err)
    (fuel : Nat) : CloseResult :=
  if c.is_shutdown then ⟨none, c, false, false⟩
  else
    let c' : ConnSt := { c with is_shutdown := true }
    let sl := shutdownLoop c' engs futs envs flush fuel
    ⟨ErrorGroup.finalize (ErrorGroup.add (ErrorGroup.add [] sl) tcRes),
     c', true, true⟩

/-- The outcome of `Conn.fillInputBuffer`: either the loop returned an
error value from a `ReadFromOnce` call that made progress, or the transport
reported `io.EOF`, upon which the inbound queue was marked EOF and
`c.Close()` was invoked and its result returned. -/
inductive FillOutcome where
  | progressed (e : Option Err)
  | eofClosed (r : CloseResult)
deriving DecidableEq

/-- Translation of `Conn.fillInputBuffer`: loop over the successive
`into_ssl.ReadFromOnce(c.conn)` outcomes (byte count and error); an outcome
of zero bytes with no error continues the loop; `io.EOF` marks the inbound
queue's EOF and returns `c.Close()`; any other outcome returns its error.
`none` is returned when the modelled outcome list is exhausted, standing
for the loop still blocking on the transport. -/
def ConnSt.fillInputBuffer (c : ConnSt) (engs : Nat → EngCall)
    (futs : Nat → Bool) (envs : Nat → HandlerEnv) (flush : Option Err)
    (tcRes : Option Err) (fuel : Nat) :
    List (Nat × Option Err) → Option FillOutcome
  | [] => none
  | (n, e) :: rest =>
      if n = 0 ∧ e = none then
        c.fillInputBuffer engs futs envs flush tcRes fuel rest
      else if e = some .eof then
        some (.eofClosed
          (ConnSt.Close { c with into_eof := true } engs futs envs flush
            tcRes fuel))
      else some (.progressed e)

/-- State of the single-flight mechanism for inbound fills: the identity of
the pending `want_read_future` if one is in flight, plus a counter used to
name the next future created.  Mirrors the `want_read_future` field of
`Conn`, every access to which happens with the connection mutex held. -/
structure FlightSt where
  pending : Option Nat
  nextId : Nat
deriving DecidableEq

/-- The role a caller stalling on `SSL_ERROR_WANT_READ` receives from
`getErrorHandler`: either it created the `want_read_future` and performs the
transport read itself, or it attached as a waiter to the future already in
flight. -/
inductive FillRole where
  | performer (id : Nat)
  | waiter (id : Nat)
deriving DecidableEq

/-- The two mutex-atomic events of the single-flight protocol: a caller
stalls on want-read (the `SSL_ERROR_WANT_READ` branch of `getErrorHandler`
runs under the mutex), or the performer resolves: its deferred block
re-locks the mutex, clears `c.want_read_future`, and delivers the result
via `Set`, waking all waiters.  The future itself is modelled from the
spec: `utils.Future` (not under `src/`) is a single-assignment, multi-waiter
completion handle. -/
inductive FillEvent where
  | stall
  | resolve
deriving DecidableEq

/-- One mutex-atomic transition of the single-flight state: a stall while a
future is pending attaches as a waiter on it; a stall with no pending
future creates a fresh future and becomes its performer; a resolve clears
the pending future. -/
def flightStep (s : FlightSt) : FillEvent → FlightSt × Option FillRole
  | .stall =>
      match s.pending with
      | some id => (s, some (.waiter id))
      | none => (⟨some s.nextId, s.nextId + 1⟩, some (.performer s.nextId))
  | .resolve => (⟨none, s.nextId⟩, none)

/-- Run a sequence of single-flight events, collecting the roles handed out
to the stalling callers in order. -/
def runFlight (s : FlightSt) : List FillEvent → FlightSt × List FillRole
  | [] => (s, [])
  | ev :: evs =>
      let p := flightStep s ev
      let q := runFlight p.1 evs
      (q.1, p.2.toList ++ q.2)

/-- C9: for every connection state and every engine behaviour, `Read` and
`Write` called with a zero-length buffer return `(0, nil)` immediately; the
result is independent of the engine responses, the future slot, the
transport outcomes, and even of the loop fuel, because the zero-length
check precedes the retry loop. -/
theorem zero_length_read_write (c : ConnSt) (engs : Nat → EngCall)
    (futs : Nat → Bool) (envs : Nat → HandlerEnv)
    (flushes : Nat → Option Err) (fuel : Nat) :
    c.Read 0 engs futs envs fuel = (0, none) ∧
    c.Write 0 engs futs envs flushes fuel = (0, none) := by
  constructor <;> simp [ConnSt.Read, ConnSt.Write]

/-- C4 (amended): in the syscall-class case, when the engine's error queue
is empty a return value of exactly `0` yields the protocol-violating
premature end error and a return value of exactly `-1` yields the captured
platform error, while every other return value — including negative values
other than `-1` — and every non-empty-queue case pulls the descriptive
error from the engine's error queue. -/
theorem syscall_classification_amended (rv : Int) (errno : Err)
    (msg : String) (fut : Bool) :
    getErrorHandler .syscall rv errno true msg fut =
      (if rv = 0 then .fail .protocolEOF
       else if rv = -1 then .fail errno
       else .fail (.queueErr msg)) ∧
    getErrorHandler .syscall rv errno false msg fut =
      .fail (.queueErr msg) := by
  constructor <;> simp [getErrorHandler]

/-- C4 (counterexample): a negative return value other than `-1` with an
empty error queue does not surface the captured platform error, contrary to
the claim; the classifier pulls from the error queue instead. -/
theorem syscall_negative_not_errno_cex :
    getErrorHandler .syscall (-2) (.errnoErr 5) true "engine error" false =
      .fail (.queueErr "engine error") ∧
    getErrorHandler .syscall (-2) (.errnoErr 5) true "engine error" false ≠
      .fail (.errnoErr 5) := by
  constructor <;> decide

/-- C7: `Close` on a connection whose shutdown flag is already set returns
`nil` without running the shutdown loop and without closing the underlying
transport again, leaving the state unchanged — so a second `Close` call is
a no-op returning success. -/
theorem close_idempotent (c : ConnSt) (engs : Nat → EngCall)
    (futs : Nat → Bool) (envs : Nat → HandlerEnv)
    (flush tcRes : Option Err) (fuel : Nat) (h : c.is_shutdown = true) :
    c.Close engs futs envs flush tcRes fuel =
      ⟨none, c, false, false⟩ := by
  simp [ConnSt.Close, h]

/-- Witness for C7 at a concrete already-shut-down connection. -/
theorem close_idempotent_witness :
    ConnSt.Close ⟨true, false⟩ (fun _ => ⟨1, .errnoErr 0, .other, true, ""⟩)
      (fun _ => false) (fun _ => ⟨none, none, none⟩) none none 2 =
      ⟨none, ⟨true, false⟩, false, false⟩ :=
  close_idempotent ⟨true, false⟩ _ _ _ none none 2 rfl

/-- C5: on a connection whose shutdown flag is set, and for every engine
behaviour (no engine step can influence the result), `Handshake` returns
the `io.ErrUnexpectedEOF` error, `Read` of a non-empty buffer returns zero
bytes with `io.EOF`, and `Write` of a non-empty buffer returns zero bytes
with the `"connection closed"` error, each on the first loop iteration. -/
theorem shutdown_flag_blocks_ops (c : ConnSt) (blen : Nat)
    (engs : Nat → EngCall) (futs : Nat → Bool) (envs : Nat → HandlerEnv)
    (flushes : Nat → Option Err) (fuel : Nat)
    (h : c.is_shutdown = true) (hb : blen ≠ 0) :
    c.Handshake engs futs envs (fuel + 1) = some .unexpectedEOF ∧
    c.Read blen engs futs envs (fuel + 1) = (0, some .eof) ∧
    c.Write blen engs futs envs flushes (fuel + 1) = (0, some .connClosed) := by
  refine ⟨?_, ?_, ?_⟩
  · simp [ConnSt.Handshake, handshakeLoop, ConnSt.handshake, h, handleError,
      handlerErr]
  · simp [ConnSt.Read, readLoop, ConnSt.read, h, hb, handleError, handlerErr]
  · simp [ConnSt.Write, writeLoop, ConnSt.write, h, hb, handleError,
      handlerErr]

/-- Witness for C5 at a concrete shut-down connection and 1-byte buffer. -/
theorem shutdown_flag_blocks_ops_witness :
    ConnSt.Handshake ⟨true, false⟩
        (fun _ => ⟨1, .errnoErr 0, .other, true, ""⟩) (fun _ => false)
        (fun _ => ⟨none, none, none⟩) 1 = some .unexpectedEOF ∧
    ConnSt.Read ⟨true, false⟩ 1
        (fun _ => ⟨1, .errnoErr 0, .other, true, ""⟩) (fun _ => false)
        (fun _ => ⟨none, none, none⟩) 1 = (0, some .eof) ∧
    ConnSt.Write ⟨true, false⟩ 1
        (fun _ => ⟨1, .errnoErr 0, .other, true, ""⟩) (fun _ => false)
        (fun _ => ⟨none, none, none⟩) (fun _ => none) 1 =
      (0, some .connClosed) :=
  shutdown_flag_blocks_ops ⟨true, false⟩ 1 _ _ _ _ 0 rfl (by decide)

/-- C6: when the engine's encrypt step succeeds on the first attempt for a
non-empty buffer on a live connection, `Write` returns the accepted byte
count paired with the result of the synchronous drain of the outbound
queue (`flushes 0`), for every possible drain outcome — the drain is
consulted before `Write` returns. -/
theorem write_success_drains_output (c : ConnSt) (blen : Nat)
    (engs : Nat → EngCall) (futs : Nat → Bool) (envs : Nat → HandlerEnv)
    (flushes : Nat → Option Err) (fuel : Nat)
    (h : c.is_shutdown = false) (hb : blen ≠ 0)
    (hrv : 0 < (engs 0).rv) :
    c.Write blen engs futs envs flushes (fuel + 1) =
      ((engs 0).rv.toNat, flushes 0) := by
  simp [ConnSt.Write, writeLoop, ConnSt.write, h, hb, hrv, handleError]

/-- Witness for C6: a 3-byte write accepted by the engine returns the count
and the drain's transport error. -/
theorem write_success_drains_output_witness :
    ConnSt.Write ⟨false, false⟩ 3
        (fun _ => ⟨3, .errnoErr 0, .other, true, ""⟩) (fun _ => false)
        (fun _ => ⟨none, none, none⟩)
        (fun _ => some (.transportErr "broken pipe")) 1 =
      (3, some (.transportErr "broken pipe")) :=
  write_success_drains_output ⟨false, false⟩ 3 _ _ _ _ 0 rfl (by decide)
    (by decide)

/-- C3: an `SSL_ERROR_ZERO_RETURN` classification (peer closed without
completing shutdown) makes `Read` return `(0, io.EOF)` — the handler's
`io.ErrUnexpectedEOF` is translated to end-of-stream for the caller —
while the same classification arriving during the shutdown loop makes
`shutdownLoop` return `nil`: the clean close is swallowed as success. -/
theorem clean_close_read_eof_shutdown_swallow (c : ConnSt) (blen : Nat)
    (engs engsS : Nat → EngCall) (futs futsS : Nat → Bool)
    (envs envsS : Nat → HandlerEnv) (flush : Option Err) (fuel fuelS : Nat)
    (h : c.is_shutdown = false) (hb : blen ≠ 0)
    (hrv : (engs 0).rv ≤ 0) (hst : (engs 0).status = .zeroReturn)
    (hrvS : (engsS 1).rv < 0) (hstS : (engsS 1).status = .zeroReturn) :
    c.Read blen engs futs envs (fuel + 1) = (0, some .eof) ∧
    shutdownLoop c engsS futsS envsS flush (fuelS + 1) = none := by
  have h1 : ¬ 0 < (engs 0).rv := by omega
  have h2 : ¬ 0 < (engsS 1).rv := by omega
  have h3 : (engsS 1).rv ≠ 0 := by omega
  constructor
  · simp [ConnSt.Read, readLoop, ConnSt.read, h, hb, h1, handleError,
      handlerErr, engHandler, getErrorHandler, hst]
  · simp [shutdownLoop, shutdownLoopAux, ConnSt.shutdown, h2, h3,
      handleError, handlerErr, engHandler, getErrorHandler, hstS]

/-- Witness for C3: a concrete clean close on the first attempt of both a
read and a shutdown loop. -/
theorem clean_close_read_eof_shutdown_swallow_witness :
    ConnSt.Read ⟨false, false⟩ 1
        (fun _ => ⟨-1, .errnoErr 0, .zeroReturn, true, ""⟩) (fun _ => false)
        (fun _ => ⟨none, none, none⟩) 1 = (0, some .eof) ∧
    shutdownLoop ⟨false, false⟩
        (fun _ => ⟨-1, .errnoErr 0, .zeroReturn, true, ""⟩) (fun _ => false)
        (fun _ => ⟨none, none, none⟩) none 1 = none :=
  clean_close_read_eof_shutdown_swallow ⟨false, false⟩ 1
    (fun _ => ⟨-1, .errnoErr 0, .zeroReturn, true, ""⟩)
    (fun _ => ⟨-1, .errnoErr 0, .zeroReturn, true, ""⟩)
    (fun _ => false) (fun _ => false)
    (fun _ => ⟨none, none, none⟩) (fun _ => ⟨none, none, none⟩)
    none 0 0 rfl (by decide) (by decide) rfl (by decide) rfl

/-- C1: `Close` on a connection not yet shut down always closes the
underlying transport and runs the shutdown loop, marks the connection shut
down, and its returned error is `nil` exactly when both the shutdown loop
and the transport close succeed; a lone failure is surfaced as-is and two
failures are aggregated into one combined error. -/
theorem close_always_closes_transport (c : ConnSt) (engs : Nat → EngCall)
    (futs : Nat → Bool) (envs : Nat → HandlerEnv)
    (flush tcRes : Option Err) (fuel : Nat) (a b : Err)
    (h : c.is_shutdown = false) :
    (c.Close engs futs envs flush tcRes fuel).closedTransport = true ∧
    (c.Close engs futs envs flush tcRes fuel).ranShutdownLoop = true ∧
    (c.Close engs futs envs flush tcRes fuel).state.is_shutdown = true ∧
    ((c.Close engs futs envs flush tcRes fuel).err = none ↔
      shutdownLoop { c with is_shutdown := true } engs futs envs flush
        fuel = none ∧ tcRes = none) ∧
    (shutdownLoop { c with is_shutdown := true } engs futs envs flush
        fuel = some a → tcRes = none →
      (c.Close engs futs envs flush tcRes fuel).err = some a) ∧
    (shutdownLoop { c with is_shutdown := true } engs futs envs flush
        fuel = none → tcRes = some b →
      (c.Close engs futs envs flush tcRes fuel).err = some b) ∧
    (shutdownLoop { c with is_shutdown := true } engs futs envs flush
        fuel = some a → tcRes = some b →
      (c.Close engs futs envs flush tcRes fuel).err =
        some (.groupErr a b)) := by
  refine ⟨?_, ?_, ?_, ?_, ?_, ?_, ?_⟩
  · simp [ConnSt.Close, h]
  · simp [ConnSt.Close, h]
  · simp [ConnSt.Close, h]
  · cases hsl : shutdownLoop { c with is_shutdown := true } engs futs envs
        flush fuel <;> cases htc : tcRes <;>
      simp [ConnSt.Close, h, hsl, htc, ErrorGroup.add, ErrorGroup.finalize]
  · intro hsl htc
    simp [ConnSt.Close, h, hsl, htc, ErrorGroup.add, ErrorGroup.finalize]
  · intro hsl htc
    simp [ConnSt.Close, h, hsl, htc, ErrorGroup.add, ErrorGroup.finalize]
  · intro hsl htc
    simp [ConnSt.Close, h, hsl, htc, ErrorGroup.add, ErrorGroup.finalize]

/-- Witness for C1: a shutdown loop that succeeds immediately paired with a
failing transport close; `Close` surfaces the transport-close failure. -/
theorem close_always_closes_transport_witness :
    (ConnSt.Close ⟨false, false⟩
        (fun _ => ⟨1, .errnoErr 0, .other, true, ""⟩) (fun _ => false)
        (fun _ => ⟨none, none, none⟩) none
        (some (.transportErr "close failed")) 2).err =
      some (.transportErr "close failed") :=
  (close_always_closes_transport ⟨false, false⟩
      (fun _ => ⟨1, .errnoErr 0, .other, true, ""⟩) (fun _ => false)
      (fun _ => ⟨none, none, none⟩) none
      (some (.transportErr "close failed")) 2 .eof
      (.transportErr "close failed") rfl).2.2.2.2.2.1 rfl rfl

/-- C10: when `ReadFromOnce` reports `io.EOF` while `fillInputBuffer`
services a want-read stall, the inbound queue is marked end-of-stream and
the full `Close` path runs — the shutdown flag is set, the shutdown loop
runs, the transport is closed — and the fill's outcome is exactly `Close`'s
result; a zero-byte, no-error transport outcome merely repeats the loop. -/
theorem fill_eof_runs_close (c : ConnSt) (engs : Nat → EngCall)
    (futs : Nat → Bool) (envs : Nat → HandlerEnv)
    (flush tcRes : Option Err) (fuel n : Nat)
    (rest : List (Nat × Option Err)) (h : c.is_shutdown = false) :
    c.fillInputBuffer engs futs envs flush tcRes fuel
        ((n, some .eof) :: rest) =
      some (.eofClosed (ConnSt.Close { c with into_eof := true } engs futs
        envs flush tcRes fuel)) ∧
    (ConnSt.Close { c with into_eof := true } engs futs envs flush tcRes
        fuel).state.into_eof = true ∧
    (ConnSt.Close { c with into_eof := true } engs futs envs flush tcRes
        fuel).state.is_shutdown = true ∧
    (ConnSt.Close { c with into_eof := true } engs futs envs flush tcRes
        fuel).ranShutdownLoop = true ∧
    (ConnSt.Close { c with into_eof := true } engs futs envs flush tcRes
        fuel).closedTransport = true ∧
    c.fillInputBuffer engs futs envs flush tcRes fuel
        ((0, none) :: (n, some .eof) :: rest) =
      c.fillInputBuffer engs futs envs flush tcRes fuel
        ((n, some .eof) :: rest) := by
  refine ⟨?_, ?_, ?_, ?_, ?_, ?_⟩ <;>
    simp [ConnSt.fillInputBuffer, ConnSt.Close, h]

/-- Witness for C10: a concrete EOF outcome leads to a closed transport. -/
theorem fill_eof_runs_close_witness :
    (ConnSt.Close ⟨false, true⟩
        (fun _ => ⟨1, .errnoErr 0, .other, true, ""⟩) (fun _ => false)
        (fun _ => ⟨none, none, none⟩) none none 2).closedTransport = true :=
  (fill_eof_runs_close ⟨false, false⟩
      (fun _ => ⟨1, .errnoErr 0, .other, true, ""⟩) (fun _ => false)
      (fun _ => ⟨none, none, none⟩) none none 2 0 [] rfl).2.2.2.2.1

/-- The shutdown loop entered with `shutdown_tries = 1` finishes within one
further iteration: a `tryAgain` on the second attempt hits the two-attempt
cap, so any fuel beyond one is never consumed. -/
lemma shutdownLoopAux_from_one (c : ConnSt) (engs : Nat → EngCall)
    (futs : Nat → Bool) (envs : Nat → HandlerEnv) (flush : Option Err)
    (fuel : Nat) :
    shutdownLoopAux c engs futs envs flush 1 (fuel + 1) =
      shutdownLoopAux c engs futs envs flush 1 1 := by
  simp only [shutdownLoopAux]
  cases handleError (c.shutdown (engs 2) (futs 2)) (envs 2) with
  | none => rfl
  | some e => simp

/-- The shutdown loop entered with `shutdown_tries = 0` finishes within two
iterations: any fuel beyond two is never consumed. -/
lemma shutdownLoopAux_from_zero (c : ConnSt) (engs : Nat → EngCall)
    (futs : Nat → Bool) (envs : Nat → HandlerEnv) (flush : Option Err)
    (fuel : Nat) :
    shutdownLoopAux c engs futs envs flush 0 (fuel + 2) =
      shutdownLoopAux c engs futs envs flush 0 2 := by
  simp only [shutdownLoopAux]
  cases handleError (c.shutdown (engs 1) (futs 1)) (envs 1) with
  | none => rfl
  | some e =>
      by_cases he : e = Err.tryAgain
      · simp [he, shutdownLoopAux_from_one c engs futs envs flush fuel]
      · simp [he]

/-- C2: the shutdown loop always terminates within two engine shutdown
attempts — its result with any fuel at least two equals its result with
fuel exactly two, and it depends only on the first two attempts' outcomes —
and when both attempts classify as `tryAgain` it returns the distinct
`"shutdown requested a third time?"` error instead of attempting a third
step. -/
theorem shutdownLoop_two_attempt_bound (c : ConnSt)
    (engs engs' : Nat → EngCall) (futs futs' : Nat → Bool)
    (envs envs' : Nat → HandlerEnv) (flush : Option Err) (fuel : Nat) :
    shutdownLoop c engs futs envs flush (fuel + 2) =
      shutdownLoop c engs futs envs flush 2 ∧
    (engs 1 = engs' 1 → futs 1 = futs' 1 → envs 1 = envs' 1 →
      engs 2 = engs' 2 → futs 2 = futs' 2 → envs 2 = envs' 2 →
      shutdownLoop c engs futs envs flush (fuel + 2) =
        shutdownLoop c engs' futs' envs' flush (fuel + 2)) ∧
    (handleError (c.shutdown (engs 1) (futs 1)) (envs 1) =
        some .tryAgain →
      handleError (c.shutdown (engs 2) (futs 2)) (envs 2) =
        some .tryAgain →
      shutdownLoop c engs futs envs flush (fuel + 2) =
        some .thirdShutdown) := by
  refine ⟨shutdownLoopAux_from_zero c engs futs envs flush fuel, ?_, ?_⟩
  · intro h1 h2 h3 h4 h5 h6
    rw [shutdownLoop, shutdownLoop,
      shutdownLoopAux_from_zero c engs futs envs flush fuel,
      shutdownLoopAux_from_zero c engs' futs' envs' flush fuel]
    simp [shutdownLoopAux, h1, h2, h3, h4, h5, h6]
  · intro h1 h2
    rw [shutdownLoop, shutdownLoopAux_from_zero]
    simp [shutdownLoopAux, h1, h2]

/-- Witness for C2: two consecutive want-write stalls whose flushes succeed
classify as `tryAgain` twice, and the loop fails with the third-time error
rather than making a third attempt. -/
theorem shutdownLoop_two_attempt_bound_witness :
    shutdownLoop ⟨true, false⟩
        (fun _ => ⟨-1, .errnoErr 0, .wantWrite, true, ""⟩) (fun _ => false)
        (fun _ => ⟨none, none, none⟩) none 3 = some .thirdShutdown :=
  (shutdownLoop_two_attempt_bound ⟨true, false⟩
      (fun _ => ⟨-1, .errnoErr 0, .wantWrite, true, ""⟩)
      (fun _ => ⟨-1, .errnoErr 0, .wantWrite, true, ""⟩)
      (fun _ => false) (fun _ => false)
      (fun _ => ⟨none, none, none⟩) (fun _ => ⟨none, none, none⟩)
      none 1).2.2 rfl rfl

/-- While a fill future is pending, every further stall attaches to it as a
waiter and the single-flight state does not change. -/
lemma runFlight_stalls_while_pending (id nid : Nat) :
    ∀ m, runFlight ⟨some id, nid⟩ (List.replicate m .stall) =
      (⟨some id, nid⟩, List.replicate m (.waiter id)) := by
  intro m
  induction m with
  | zero => rfl
  | succ m ih => simp [List.replicate_succ, runFlight, flightStep, ih]

/-- Running a concatenation of single-flight event sequences threads the
state and concatenates the handed-out roles. -/
lemma runFlight_append (l₁ l₂ : List FillEvent) :
    ∀ s, runFlight s (l₁ ++ l₂) =
      ((runFlight (runFlight s l₁).1 l₂).1,
        (runFlight s l₁).2 ++ (runFlight (runFlight s l₁).1 l₂).2) := by
  induction l₁ with
  | nil => intro s; simp [runFlight]
  | cons ev evs ih => intro s; simp [runFlight, ih]

/-- C8: in the single-flight protocol, when `n + 1` callers stall on
want-read with no fill in flight, exactly the first becomes the performer
of a new fill future and the remaining `n` attach as waiters on that same
future; the performer's resolution clears the pending future, and a stall
arriving after the resolution starts a fresh fill with a new performer. -/
theorem single_flight_fill (n k : Nat) :
    runFlight ⟨none, k⟩ (List.replicate (n + 1) FillEvent.stall) =
      (⟨some k, k + 1⟩,
        FillRole.performer k :: List.replicate n (FillRole.waiter k)) ∧
    (runFlight ⟨none, k⟩ (List.replicate (n + 1) FillEvent.stall ++
        [FillEvent.resolve])).1 = ⟨none, k + 1⟩ ∧
    (runFlight ⟨none, k⟩ (List.replicate (n + 1) FillEvent.stall ++
        [FillEvent.resolve, FillEvent.stall])).2 =
      FillRole.performer k :: (List.replicate n (FillRole.waiter k) ++
        [FillRole.performer (k + 1)]) := by
  have hstalls : runFlight ⟨none, k⟩
      (List.replicate (n + 1) FillEvent.stall) =
      (⟨some k, k + 1⟩,
        FillRole.performer k :: List.replicate n (FillRole.waiter k)) := by
    simp [List.replicate_succ, runFlight, flightStep,
      runFlight_stalls_while_pending k (k + 1) n]
  refine ⟨hstalls, ?_, ?_⟩
  · rw [runFlight_append, hstalls]
    simp [runFlight, flightStep]
  · rw [runFlight_append, hstalls]
    simp [runFlight, flightStep]

end OpensslConn
